import Mathlib

/-!
# Verification of the GSD-84 reformatting tool (`src/app.py`)

A shallow embedding of the spreadsheet-to-CSV conversion pipeline of
`app.py` and proofs of its specified properties.

Modelling decisions, recorded once here:

* A spreadsheet cell, as it arrives from `pd.read_excel`, is an
  `Option Value`: `none` models a blank cell (a pandas `NaN`), `some v`
  a populated one.  A populated cell holds either a calendar date
  (`pd.Timestamp`, of which the code only ever uses the year, month and
  day), a text string, a 64-bit integer, or a floating point number.
  Machine floats are modelled as exact rationals: every numeric literal
  appearing in the program or in the tests is exactly representable at
  the precision the program uses, and the 2-decimal formatting is
  modelled with round-half-to-even ties, the rounding Python applies
  when formatting.
* The `Amount Due` column is modelled as `Option ℚ`: the code compares
  it with `0` and formats it with `f-strings`, both of which assume a
  float column (pandas reads a numeric column with blanks as `float64`).
  A blank amount is pandas `NaN`; Python evaluates `NaN < 0` to `False`
  and formats `NaN` as the string `nan`, and the model reproduces both.
* `pd.read_excel(file, header=9, usecols="B:G")` parses external bytes
  with the pandas library, which is outside this repository.  Its
  outcome is therefore the *input* of the embedded pipeline: either a
  parse failure carrying a message (malformed file, missing header row
  or columns) or the list of raw data rows of the sheet region.
  Exception propagation (`raise` / `try` / `except` in `main`) is
  modelled with `Except`.
* Python's `str.strip`, `str.isdigit`, `int(...)`, `str(...)` and
  `f"{x:.2f}"` are modelled by the `pyStrip`, `pyIsdigit`, `pyInt?`,
  `pyStr` and `formatTwoDec` functions below, each documented where
  defined.  `str.isdigit` and `int` use two different Unicode
  character classes (Numeric_Type Digit-or-Decimal versus the decimal
  digits), both embedded below as the explicit codepoint range tables
  of the CPython 3.11 runtime (Unicode 14.0); the gap between the two
  classes is a real failure path of the program.
-/

/-- A populated spreadsheet cell value as pandas delivers it:
a calendar date (`pd.Timestamp`; only its year/month/day are ever
consumed), a text string, an integer, or a float (modelled as an exact
rational). -/
inductive Value where
  | timestamp (y m d : Nat)
  | text (s : String)
  | int (z : Int)
  | float (q : ℚ)
deriving DecidableEq, Repr

/-- A cell of the parsed sheet: `none` is a blank cell (pandas `NaN`). -/
abbrev Cell := Option Value

/-- One row of the data region (columns B..G of the sheet, header on
row 10): `Date`, `Invoice No.`, `Customer Name`, `Amount` (never
consumed), `Amount Due`, `Card ID`.  `Amount Due` is the float column
the code compares and formats, hence `Option ℚ`. -/
structure RawRow where
  date : Cell
  invoiceNo : Cell
  customerName : Cell
  amount : Cell
  amountDue : Option ℚ
  cardId : Cell
deriving DecidableEq, Repr

/-- One row of the converted result, the five columns selected at the
end of `process_excel` in their fixed order.  `Debtor Reference` is the
raw cell value the `apply` lambda returns (a `Customer Name` or
`Card ID` cell); the other four columns are strings built by the
conversion lambdas. -/
structure OutputRow where
  debtorReference : Cell
  transactionType : String
  documentNumber : String
  documentDate : String
  documentBalance : String
deriving DecidableEq, Repr

/-! ## String helpers modelling the Python primitives -/

/-- Decimal digit characters of a natural number, most significant
first, with explicit fuel (the fuel `n + 1` used by `natDecimal` always
suffices).  Models the decimal rendering shared by Python's `str(int)`
and `strftime`. -/
def natDecimalAux : Nat → Nat → List Char
  | 0, _ => []
  | fuel + 1, n =>
    if n < 10 then [Nat.digitChar n]
    else natDecimalAux fuel (n / 10) ++ [Nat.digitChar (n % 10)]

/-- Canonical decimal digit list of a natural number (no leading zeros,
`0` renders as `"0"`).  Models Python's `str` on a nonnegative `int`. -/
def natDecimal (n : Nat) : List Char :=
  natDecimalAux (n + 1) n

/-- Left-pad a digit list with `'0'` to width `w`.  Models the zero
padding of `strftime("%Y-%m-%d")` fields and of the 2-digit cents. -/
def zfill (w : Nat) (l : List Char) : List Char :=
  List.replicate (w - l.length) '0' ++ l

/-- Model of Python `str.strip()`: drop whitespace from both ends. -/
def pyStrip (s : String) : String :=
  String.mk (((s.data.dropWhile Char.isWhitespace).reverse.dropWhile
    Char.isWhitespace).reverse)

/-- Inclusive codepoint ranges of the characters Python's
`str.isdigit()` accepts (Unicode property Numeric_Type Decimal or
Digit), from the Unicode 14.0 tables of the CPython 3.11 runtime.
The class is strictly larger than the decimal digits: it also holds,
for example, the superscript digits (U+00B2, codepoint 178, is the
superscript two). -/
def pyDigitRanges : List (Nat × Nat) :=
  [(48, 57), (178, 179), (185, 185), (1632, 1641), (1776, 1785), (1984, 1993),
   (2406, 2415), (2534, 2543), (2662, 2671), (2790, 2799), (2918, 2927), (3046, 3055),
   (3174, 3183), (3302, 3311), (3430, 3439), (3558, 3567), (3664, 3673), (3792, 3801),
   (3872, 3881), (4160, 4169), (4240, 4249), (4969, 4977), (6112, 6121), (6160, 6169),
   (6470, 6479), (6608, 6618), (6784, 6793), (6800, 6809), (6992, 7001), (7088, 7097),
   (7232, 7241), (7248, 7257), (8304, 8304), (8308, 8313), (8320, 8329), (9312, 9320),
   (9332, 9340), (9352, 9360), (9450, 9450), (9461, 9469), (9471, 9471), (10102, 10110),
   (10112, 10120), (10122, 10130), (42528, 42537), (43216, 43225), (43264, 43273), (43472, 43481),
   (43504, 43513), (43600, 43609), (44016, 44025), (65296, 65305), (66720, 66729), (68160, 68163),
   (68912, 68921), (69216, 69224), (69714, 69722), (69734, 69743), (69872, 69881), (69942, 69951),
   (70096, 70105), (70384, 70393), (70736, 70745), (70864, 70873), (71248, 71257), (71360, 71369),
   (71472, 71481), (71904, 71913), (72016, 72025), (72784, 72793), (73040, 73049), (73120, 73129),
   (92768, 92777), (92864, 92873), (93008, 93017), (120782, 120831), (123200, 123209), (123632, 123641),
   (125264, 125273), (127232, 127242), (130032, 130041)]

/-- Inclusive codepoint ranges of the Unicode decimal digits (category
Nd, same tables).  Each range is an ascending run whose first
codepoint has decimal value 0, so a member's digit value is its
codepoint minus the range start.  These are exactly the digit
characters Python's `int(...)` accepts. -/
def pyDecimalRanges : List (Nat × Nat) :=
  [(48, 57), (1632, 1641), (1776, 1785), (1984, 1993), (2406, 2415), (2534, 2543),
   (2662, 2671), (2790, 2799), (2918, 2927), (3046, 3055), (3174, 3183), (3302, 3311),
   (3430, 3439), (3558, 3567), (3664, 3673), (3792, 3801), (3872, 3881), (4160, 4169),
   (4240, 4249), (6112, 6121), (6160, 6169), (6470, 6479), (6608, 6617), (6784, 6793),
   (6800, 6809), (6992, 7001), (7088, 7097), (7232, 7241), (7248, 7257), (42528, 42537),
   (43216, 43225), (43264, 43273), (43472, 43481), (43504, 43513), (43600, 43609), (44016, 44025),
   (65296, 65305), (66720, 66729), (68912, 68921), (69734, 69743), (69872, 69881), (69942, 69951),
   (70096, 70105), (70384, 70393), (70736, 70745), (70864, 70873), (71248, 71257), (71360, 71369),
   (71472, 71481), (71904, 71913), (72016, 72025), (72784, 72793), (73040, 73049), (73120, 73129),
   (92768, 92777), (92864, 92873), (93008, 93017), (120782, 120791), (120792, 120801), (120802, 120811),
   (120812, 120821), (120822, 120831), (123200, 123209), (123632, 123641), (125264, 125273), (130032, 130041)]

/-- Does the character belong to Python's `str.isdigit()` class? -/
def isPyDigit (c : Char) : Bool :=
  pyDigitRanges.any fun p => decide (p.1 ≤ c.toNat) && decide (c.toNat ≤ p.2)

/-- Is the character a Unicode decimal digit, i.e. one that Python's
`int(...)` accepts? -/
def isPyDecimal (c : Char) : Bool :=
  pyDecimalRanges.any fun p => decide (p.1 ≤ c.toNat) && decide (c.toNat ≤ p.2)

/-- Unicode decimal value of a decimal digit character (0 on any
other character; the parsers below only apply it to decimal digits). -/
def pyDecimalVal (c : Char) : Nat :=
  match pyDecimalRanges.find?
      (fun p => decide (p.1 ≤ c.toNat) && decide (c.toNat ≤ p.2)) with
  | some p => c.toNat - p.1
  | none => 0

/-- Model of Python `str.isdigit()` (the test of app.py line 49):
nonempty and every character of the Unicode digit class.  That class
is strictly wider than what `int(...)` parses, which is the source of
the `ValueError` failure path exhibited below. -/
def pyIsdigit (s : String) : Bool :=
  !s.data.isEmpty && s.data.all isPyDigit

/-- Value of a list of decimal digits, most significant first, per
their Unicode decimal values (the value `int(...)` computes once its
syntax check passed). -/
def digitsToNat (l : List Char) : Nat :=
  l.foldl (fun a c => 10 * a + pyDecimalVal c) 0

/-- Model of Python `int(s)` as a fallible parse: strip whitespace,
allow one optional sign, then require at least one character, all of
the Unicode decimal class; any other shape (superscript and other
digit-class non-decimal characters included) raises `ValueError`,
modelled as `none`. -/
def pyInt? (s : String) : Option Int :=
  match (pyStrip s).data with
  | [] => none
  | c :: rest =>
    if c = '-' then
      if !rest.isEmpty && rest.all isPyDecimal then
        some (-(digitsToNat rest : Int))
      else none
    else if c = '+' then
      if !rest.isEmpty && rest.all isPyDecimal then
        some (digitsToNat rest : Int)
      else none
    else
      if (c :: rest).all isPyDecimal then
        some (digitsToNat (c :: rest) : Int)
      else none

/-- Decimal rendering of an integer: sign, then canonical digits.
Models Python `str` on an `int`. -/
def intDecimal (z : Int) : List Char :=
  (if z < 0 then ['-'] else []) ++ natDecimal z.natAbs

/-- Fractional decimal digits of `num / den` (`num < den`), produced by
long division, stopping when the remainder vanishes, with fuel bounding
the count.  Used to render the fractional part of a float. -/
def fracDigits : Nat → Nat → Nat → List Char
  | 0, _, _ => []
  | _ + 1, 0, _ => []
  | fuel + 1, r, d => Nat.digitChar (r * 10 / d) :: fracDigits fuel (r * 10 % d) d

/-- Decimal rendering of a float value: sign, integer part, point,
fractional digits (`.0` when the value is integral, as Python prints
`2.0` for the float two).  Models Python `str` on a float for the
short decimal values spreadsheet cells hold. -/
def floatDecimal (q : ℚ) : List Char :=
  let n := q.num.natAbs
  let d := q.den
  let frac := fracDigits 17 (n % d) d
  (if q < 0 then ['-'] else []) ++ natDecimal (n / d) ++
    '.' :: (if frac.isEmpty then ['0'] else frac)

/-- Model of Python `str(...)` on a populated cell value: text passes
through, integers and floats render in decimal, and a `pd.Timestamp`
renders as `YYYY-MM-DD HH:MM:SS` (the dates read from the sheet are at
midnight). -/
def pyStr : Value → String
  | .text s => s
  | .int z => String.mk (intDecimal z)
  | .float q => String.mk (floatDecimal q)
  | .timestamp y m d =>
    String.mk (zfill 4 (natDecimal y) ++ '-' :: zfill 2 (natDecimal m) ++
      '-' :: zfill 2 (natDecimal d) ++ " 00:00:00".data)

/-- Model of Python `str(...)` on a cell: a blank cell is pandas `NaN`,
a float whose `str` is `"nan"`. -/
def pyStrCell : Cell → String
  | none => "nan"
  | some v => pyStr v

/-! ## The conversion lambdas of `process_excel` -/

/-- The filter of `df.dropna(subset=["Date", "Invoice No.",
"Customer Name", "Card ID"], how="any")` (app.py lines 23-25): a row is
kept exactly when those four cells are all populated. -/
def required_present (r : RawRow) : Bool :=
  r.date.isSome && r.invoiceNo.isSome && r.customerName.isSome && r.cardId.isSome

/-- `Debtor Reference` (app.py lines 31-36): the `Customer Name` cell
when `str(row["Card ID"]).strip() == "*None"`, else the `Card ID`
cell. -/
def debtor_reference (r : RawRow) : Cell :=
  if pyStrip (pyStrCell r.cardId) = "*None" then r.customerName else r.cardId

/-- `Transaction Type` (app.py line 39): `"CRD" if x < 0 else "INV"`
on the `Amount Due` float.  A blank amount is `NaN`, and `NaN < 0` is
`False` in Python, so it falls to `"INV"`. -/
def transaction_type (x : Option ℚ) : String :=
  match x with
  | some q => if q < 0 then "CRD" else "INV"
  | none => "INV"

/-- The string-level body of `convert_invoice` (app.py lines 47-52):
strip, and when `str.isdigit()` passes re-render through `int`, else
pass through.  This is the total projection of the code: on the
digit-class strings that hold a non-decimal digit the real `int`
raises, while this version sums the decimal values only (the checked
variant below keeps that failure explicit). -/
def convert_invoice_str (s : String) : String :=
  let t := pyStrip s
  if pyIsdigit t then String.mk (natDecimal (digitsToNat t.data)) else t

/-- `convert_invoice` (app.py lines 43-52): a blank cell (`pd.isna`)
yields `""`; otherwise convert the textual form of the cell. -/
def convert_invoice (invoice : Cell) : String :=
  match invoice with
  | none => ""
  | some v => convert_invoice_str (pyStr v)

/-- `convert_invoice` with Python `int(...)`'s failure path kept
explicit: `none` models the `ValueError` that `int` raises when the
`isdigit` guard admits a string holding a digit-class character that
is not a decimal digit (for example the superscript two). -/
def convert_invoice_checked (invoice : Cell) : Option String :=
  match invoice with
  | none => some ""
  | some v =>
    let t := pyStrip (pyStr v)
    if pyIsdigit t then
      (pyInt? t).map (fun z => String.mk (intDecimal z))
    else some t

/-- `convert_date` (app.py lines 57-62): blank yields `""`, a
`pd.Timestamp` renders as `strftime("%Y-%m-%d")`, anything else renders
as `str(val)`. -/
def convert_date (val : Cell) : String :=
  match val with
  | none => ""
  | some (.timestamp y m d) =>
    String.mk (zfill 4 (natDecimal y) ++ '-' :: zfill 2 (natDecimal m) ++
      '-' :: zfill 2 (natDecimal d))
  | some v => pyStr v

/-- Round a rational to the nearest integer, ties to even: the rounding
Python applies when formatting a float with `f"{x:.2f}"`. -/
def roundHalfEven (x : ℚ) : Int :=
  let f := ⌊x⌋
  let r := x - f
  if r < 1 / 2 then f
  else if 1 / 2 < r then f + 1
  else if f % 2 = 0 then f else f + 1

/-- `Document Balance` (app.py line 67): `f"{x:.2f}"` on the
`Amount Due` float.  A populated amount renders as sign, integer part,
point, two cent digits, rounding half-to-even; a blank amount is `NaN`,
which Python formats as `"nan"`. -/
def formatTwoDec (x : Option ℚ) : String :=
  match x with
  | none => "nan"
  | some q =>
    let n := (roundHalfEven (|q| * 100)).toNat
    String.mk ((if q < 0 then ['-'] else []) ++ natDecimal (n / 100) ++
      '.' :: zfill 2 (natDecimal (n % 100)))

/-! ## The pipeline -/

/-- The per-row content of the five column assignments of
`process_excel`, gathered into one record (the dataframe keeps the
columns aligned on the same row index). -/
def transformRow (r : RawRow) : OutputRow :=
  { debtorReference := debtor_reference r
    transactionType := transaction_type r.amountDue
    documentNumber := convert_invoice r.invoiceNo
    documentDate := convert_date r.date
    documentBalance := formatTwoDec r.amountDue }

/-- Align the five computed columns back into rows, as the final
`df[[...]]` column selection reads them off the shared row index. -/
def buildOutput : List Cell → List String → List String → List String →
    List String → List OutputRow
  | a :: as, b :: bs, c :: cs, d :: ds, e :: es =>
    ⟨a, b, c, d, e⟩ :: buildOutput as bs cs ds es
  | _, _, _, _, _ => []

/-- `process_excel` (app.py lines 5-80) over the outcome of
`pd.read_excel`: a parse failure propagates (the function raises
through); otherwise drop the rows missing a required field, compute the
five columns with the conversion lambdas, and select them in order. -/
def process_excel (input : Except String (List RawRow)) :
    Except String (List OutputRow) :=
  match input with
  | .error e => .error e
  | .ok rows =>
    let df := rows.filter required_present
    .ok (buildOutput
      (df.map debtor_reference)
      (df.map (fun r => transaction_type r.amountDue))
      (df.map (fun r => convert_invoice r.invoiceNo))
      (df.map (fun r => convert_date r.date))
      (df.map (fun r => formatTwoDec r.amountDue)))

/-- CSV rendering of one field under the minimal quoting of
`df.to_csv`: quote when the text holds a comma, a quote or a line
break, doubling inner quotes. -/
def csvField (s : String) : String :=
  if s.data.any (fun c => c = ',' || c = '"' || c = '\n' || c = '\r') then
    "\"" ++ String.mk (s.data.foldr
      (fun c acc => if c = '"' then '"' :: '"' :: acc else c :: acc) []) ++ "\""
  else s

/-- One CSV line of the converted dataframe. -/
def csvLine (o : OutputRow) : String :=
  csvField (pyStrCell o.debtorReference) ++ "," ++ csvField o.transactionType ++
    "," ++ csvField o.documentNumber ++ "," ++ csvField o.documentDate ++
    "," ++ csvField o.documentBalance

/-- `df_final.to_csv(index=False)` (app.py line 121): the fixed header
line, then one line per output row in order. -/
def to_csv (rows : List OutputRow) : String :=
  "Debtor Reference,Transaction Type,Document Number,Document Date,Document Balance\n"
    ++ String.join (rows.map (fun o => csvLine o ++ "\n"))

/-- What `main` (app.py lines 112-129) hands to the UI for one upload:
the CSV text when `process_excel` succeeds, the caught exception's
message when it fails.  No CSV is built on the failure path. -/
def main_result (input : Except String (List RawRow)) : Except String String :=
  (process_excel input).map to_csv

/-- `convert_invoice` with the fallible `int(...)` kept explicit,
lifted to a whole row: the one sub-operation of the row transform that
has a failure path in Python. -/
def transformRow_checked (r : RawRow) : Option OutputRow :=
  (convert_invoice_checked r.invoiceNo).map fun dn =>
    { debtorReference := debtor_reference r
      transactionType := transaction_type r.amountDue
      documentNumber := dn
      documentDate := convert_date r.date
      documentBalance := formatTwoDec r.amountDue }

/-- The format shape the specification asks of `Document Balance` for a
populated amount: an optional leading minus present exactly when the
amount is negative, a nonempty integer part, a point, exactly two cent
digits, every character a digit, a minus or a point, and the rendered
cents within half a cent of the exact scaled amount. -/
def twoDecShape (s : String) (q : ℚ) : Prop :=
  ∃ n : Nat,
    |(n : ℚ) - |q| * 100| ≤ 1 / 2 ∧
    s.data = (if q < 0 then ['-'] else []) ++ natDecimal (n / 100) ++
      '.' :: zfill 2 (natDecimal (n % 100)) ∧
    (zfill 2 (natDecimal (n % 100))).length = 2 ∧
    natDecimal (n / 100) ≠ [] ∧
    (∀ c ∈ natDecimal (n / 100), c.isDigit = true) ∧
    (∀ c ∈ zfill 2 (natDecimal (n % 100)), c.isDigit = true) ∧
    (s.data.head? = some '-' ↔ q < 0) ∧
    (∀ c ∈ s.data, c.isDigit = true ∨ c = '-' ∨ c = '.')

/-! ## Basic lemmas about the helpers -/

theorem natDecimalAux_congr : ∀ f₁ f₂ n, n < f₁ → n < f₂ →
    natDecimalAux f₁ n = natDecimalAux f₂ n := by
  intro f₁
  induction f₁ with
  | zero => intro f₂ n h; omega
  | succ f ih =>
    intro f₂ n h₁ h₂
    match f₂, h₂ with
    | f' + 1, _ =>
      simp only [natDecimalAux]
      by_cases h : n < 10
      · simp [h]
      · have hn : 0 < n := by omega
        have hd : n / 10 < n := Nat.div_lt_self hn (by omega)
        simp only [h, if_false]
        rw [ih f' (n / 10) (by omega) (by omega)]

/-- The one-step unfolding of `natDecimal`, independent of fuel. -/
theorem natDecimal_eq (n : Nat) :
    natDecimal n = if n < 10 then [Nat.digitChar n]
      else natDecimal (n / 10) ++ [Nat.digitChar (n % 10)] := by
  by_cases h : n < 10
  · simp [natDecimal, natDecimalAux, h]
  · have hd : n / 10 < n := Nat.div_lt_self (by omega) (by omega)
    rw [if_neg h]
    show natDecimalAux (n + 1) n = _
    rw [natDecimalAux, if_neg h]
    congr 1
    exact natDecimalAux_congr n (n / 10 + 1) (n / 10) (by omega) (by omega)

theorem digitChar_isDigit (k : Nat) (h : k < 10) :
    (Nat.digitChar k).isDigit = true := by
  interval_cases k <;> decide

theorem natDecimal_ne_nil (n : Nat) : natDecimal n ≠ [] := by
  rw [natDecimal_eq]
  by_cases h : n < 10 <;> simp [h]

theorem natDecimal_all_digits (n : Nat) :
    ∀ c ∈ natDecimal n, c.isDigit = true := by
  induction n using Nat.strong_induction_on with
  | _ n ih =>
    rw [natDecimal_eq]
    by_cases h : n < 10
    · simp only [h, if_true, List.mem_singleton]
      intro c hc; subst hc; exact digitChar_isDigit n h
    · have hn : 0 < n := by omega
      have hd : n / 10 < n := Nat.div_lt_self hn (by omega)
      simp only [h, if_false, List.mem_append, List.mem_singleton]
      intro c hc
      rcases hc with hc | hc
      · exact ih (n / 10) hd c hc
      · subst hc; exact digitChar_isDigit _ (Nat.mod_lt n (by omega))

theorem natDecimal_length_le_two (k : Nat) (h : k < 100) :
    (natDecimal k).length ≤ 2 := by
  rw [natDecimal_eq]
  by_cases h1 : k < 10
  · simp [h1]
  · have h2 : k / 10 < 10 := by omega
    simp only [h1, if_false, List.length_append, List.length_singleton]
    rw [natDecimal_eq]
    simp [h2]

theorem zfill_two_length (l : List Char) (h : l.length ≤ 2) :
    (zfill 2 l).length = 2 := by
  simp only [zfill, List.length_append, List.length_replicate]
  omega

theorem zfill_digits (w : Nat) (l : List Char)
    (h : ∀ c ∈ l, c.isDigit = true) :
    ∀ c ∈ zfill w l, c.isDigit = true := by
  intro c hc
  simp only [zfill, List.mem_append, List.mem_replicate] at hc
  rcases hc with hc | hc
  · rw [hc.2]; decide
  · exact h c hc

/-! ## Lemmas about the pipeline -/

theorem buildOutput_maps (l : List RawRow) :
    buildOutput (l.map debtor_reference)
      (l.map (fun r => transaction_type r.amountDue))
      (l.map (fun r => convert_invoice r.invoiceNo))
      (l.map (fun r => convert_date r.date))
      (l.map (fun r => formatTwoDec r.amountDue)) = l.map transformRow := by
  induction l with
  | nil => rfl
  | cons r t ih => simp [buildOutput, transformRow, ih]

/-- `process_excel` on a successfully parsed sheet is the row transform
mapped over the rows that keep all required fields. -/
theorem process_excel_ok (rows : List RawRow) :
    process_excel (.ok rows) =
      .ok ((rows.filter required_present).map transformRow) := by
  simp [process_excel, buildOutput_maps]

theorem countP_bnot {α : Type} (p : α → Bool) (l : List α) :
    l.countP p + l.countP (fun a => !p a) = l.length := by
  induction l with
  | nil => rfl
  | cons a t ih =>
    cases h : p a <;> simp [List.countP_cons, h] <;> omega

theorem roundHalfEven_sub_le (x : ℚ) : |(roundHalfEven x : ℚ) - x| ≤ 1 / 2 := by
  have hf1 : ((⌊x⌋ : ℤ) : ℚ) ≤ x := Int.floor_le x
  have hf2 : x < ((⌊x⌋ : ℤ) : ℚ) + 1 := Int.lt_floor_add_one x
  simp only [roundHalfEven]
  split_ifs with h1 h2 h3
  all_goals rw [abs_le]; push_cast; constructor <;> linarith

theorem roundHalfEven_nonneg (x : ℚ) (h : 0 ≤ x) : 0 ≤ roundHalfEven x := by
  have hf : (0 : ℤ) ≤ ⌊x⌋ := Int.floor_nonneg.mpr h
  simp only [roundHalfEven]
  split_ifs <;> omega

/-- The balance format produced for a populated amount satisfies the
shape the specification describes. -/
theorem formatTwoDec_shape (q : ℚ) : twoDecShape (formatTwoDec (some q)) q := by
  have h0 : (0 : ℚ) ≤ |q| * 100 := mul_nonneg (abs_nonneg q) (by norm_num)
  have hnn : 0 ≤ roundHalfEven (|q| * 100) := roundHalfEven_nonneg _ h0
  refine ⟨(roundHalfEven (|q| * 100)).toNat, ?_, ?_, ?_, ?_, ?_, ?_, ?_, ?_⟩
  · have hcast : (((roundHalfEven (|q| * 100)).toNat : Nat) : ℚ) =
        ((roundHalfEven (|q| * 100) : ℤ) : ℚ) := by
      exact_mod_cast Int.toNat_of_nonneg hnn
    rw [hcast]
    exact roundHalfEven_sub_le _
  · rfl
  · exact zfill_two_length _ (natDecimal_length_le_two _ (Nat.mod_lt _ (by norm_num)))
  · exact natDecimal_ne_nil _
  · exact natDecimal_all_digits _
  · exact zfill_digits _ _ (natDecimal_all_digits _)
  · by_cases hq0 : q < 0
    · simp [formatTwoDec, hq0]
    · have hne := natDecimal_ne_nil ((roundHalfEven (|q| * 100)).toNat / 100)
      cases hh : natDecimal ((roundHalfEven (|q| * 100)).toNat / 100) with
      | nil => exact absurd hh hne
      | cons c cs =>
        have hcd : c.isDigit = true := natDecimal_all_digits _ c
          (by rw [hh]; exact List.mem_cons_self c cs)
        have hcm : c ≠ '-' := by
          rintro rfl; exact absurd hcd (by decide)
        constructor
        · intro hhead
          exfalso
          simp only [formatTwoDec, hq0, if_false, List.nil_append] at hhead
          rw [hh] at hhead
          simp only [List.cons_append, List.head?_cons, Option.some_inj] at hhead
          exact hcm hhead
        · intro h; exact absurd h hq0
  · intro c hc
    simp only [formatTwoDec] at hc
    by_cases hq0 : q < 0 <;>
      simp only [hq0, if_true, if_false, String.data] at hc
    · rcases List.mem_cons.mp hc with rfl | hc
      · right; left; rfl
      · rcases List.mem_append.mp hc with hc | hc
        · exact Or.inl (natDecimal_all_digits _ c hc)
        · rcases List.mem_cons.mp hc with rfl | hc
          · right; right; rfl
          · exact Or.inl (zfill_digits _ _ (natDecimal_all_digits _) c hc)
    · rw [List.nil_append] at hc
      rcases List.mem_append.mp hc with hc | hc
      · exact Or.inl (natDecimal_all_digits _ c hc)
      · rcases List.mem_cons.mp hc with rfl | hc
        · right; right; rfl
        · exact Or.inl (zfill_digits _ _ (natDecimal_all_digits _) c hc)

/-! ## Example rows (the end-to-end scenario of the specification) -/

def exampleRow1 : RawRow :=
  { date := some (.timestamp 2024 1 5)
    invoiceNo := some (.text "00048071")
    customerName := some (.text "Acme Co")
    amount := some (.float 100)
    amountDue := some (Rat.divInt 17495 100)
    cardId := some (.text "*None") }

def exampleRow2 : RawRow :=
  { date := some (.timestamp 2024 1 6)
    invoiceNo := some (.text "INV-9")
    customerName := some (.text "Beta LLC")
    amount := some (.float (-5))
    amountDue := some (-5)
    cardId := some (.text "C99") }

/-- The trailing totals row: only `Amount Due` is populated. -/
def totalsRow : RawRow :=
  { date := none
    invoiceNo := none
    customerName := none
    amount := none
    amountDue := some (Rat.divInt 16995 100)
    cardId := none }

def exampleRows : List RawRow := [exampleRow1, exampleRow2, totalsRow]

/-- A row with all required fields present but a blank `Amount Due`. -/
def blankAmountRow : RawRow :=
  { date := some (.timestamp 2024 2 1)
    invoiceNo := some (.text "77")
    customerName := some (.text "Gamma")
    amount := none
    amountDue := none
    cardId := some (.text "G1") }

def crdRow : RawRow :=
  { date := some (.timestamp 2024 3 1)
    invoiceNo := some (.text "1")
    customerName := some (.text "N1")
    amount := none
    amountDue := some (-10)
    cardId := some (.text "K1") }

def zeroRow : RawRow :=
  { date := some (.timestamp 2024 3 2)
    invoiceNo := some (.text "2")
    customerName := some (.text "N2")
    amount := none
    amountDue := some 0
    cardId := some (.text "K2") }

def posRow : RawRow :=
  { date := some (.timestamp 2024 3 3)
    invoiceNo := some (.text "3")
    customerName := some (.text "N3")
    amount := none
    amountDue := some 10
    cardId := some (.text "K3") }

/-! ## The claims -/

/-- Claim C1: a raw row appears in the output sequence exactly when its
`Date`, `Invoice No.`, `Customer Name` and `Card ID` fields are all
present, and when exactly one source row misses a required field the
output row count is the source data row count minus one. -/
theorem row_filtering_count (rows : List RawRow) :
    process_excel (.ok rows) = .ok ((rows.filter fun r =>
      r.date.isSome && r.invoiceNo.isSome && r.customerName.isSome &&
        r.cardId.isSome).map transformRow) ∧
    (rows.countP (fun r => !required_present r) = 1 →
      ∀ outs, process_excel (.ok rows) = .ok outs →
        outs.length = rows.length - 1) := by
  constructor
  · exact process_excel_ok rows
  · intro h outs houts
    rw [process_excel_ok rows] at houts
    have heq : (rows.filter required_present).map transformRow = outs := by
      simpa using houts
    subst heq
    rw [List.length_map, ← List.countP_eq_length_filter]
    have hsum := countP_bnot required_present rows
    omega

/-- Witness for C1 on the end-to-end scenario: only the trailing totals
row misses a required field, and the output has one row fewer than the
source. -/
theorem row_filtering_count_witness :
    exampleRows.countP (fun r => !required_present r) = 1 ∧
    ∀ outs, process_excel (.ok exampleRows) = .ok outs →
      outs.length = exampleRows.length - 1 :=
  ⟨by decide, (row_filtering_count exampleRows).2 (by decide)⟩

/-- A well-formed row (all four required fields present) whose
invoice number is the superscript two: Python's digit test accepts it
but `int` raises on it. -/
def superscriptRow : RawRow :=
  { date := some (.timestamp 2024 4 1)
    invoiceNo := some (.text "\u00b2")
    customerName := some (.text "Delta")
    amount := none
    amountDue := some 1
    cardId := some (.text "D1") }

/-- Claim C2 (code bug): the digit test the program applies is Python
`str.isdigit()`, a strictly wider class than the decimal digits the
claim describes.  At the superscript two -- a digit-class character
that is not a decimal digit -- the test passes, so instead of the
claimed pass-through the conversion reaches `int`, which raises; and
the non-ASCII decimal digit U+0663 is parsed and re-rendered as `3`
rather than passed through.  On ASCII invoice numbers the conversion
behaves exactly as the claim says: leading zeros stripped from
digit-only text, dashed, pointed and signed text passed through
unchanged, a blank cell giving the empty string. -/
theorem document_number_unicode_digit_bug :
    pyIsdigit "\u00b2" = true ∧
    ("\u00b2").data.all isPyDecimal = false ∧
    pyInt? "\u00b2" = none ∧
    convert_invoice_checked (some (.text "\u00b2")) = none ∧
    convert_invoice_checked (some (.text "\u0663")) = some "3" ∧
    convert_invoice_checked (some (.text "  00048071 ")) = some "48071" ∧
    convert_invoice_checked (some (.text "INV-204")) = some "INV-204" ∧
    convert_invoice_checked (some (.text "48071.0")) = some "48071.0" ∧
    convert_invoice_checked (some (.text "-48071")) = some "-48071" ∧
    convert_invoice_checked none = some "" := by decide

/-- Claim C3 (code bug): the per-record transform is not total.  On a
record satisfying the required-field invariant whose invoice number is
the superscript two, the `Document Number` conversion reaches `int`
with a string that is not a numeral and raises `ValueError`: the
checked transform, which keeps that failure path explicit, fails. -/
theorem transform_totality_bug :
    required_present superscriptRow = true ∧
    transformRow_checked superscriptRow = none := by decide

/-- Claim C4: `Debtor Reference` equals the record's `Card ID`, except
when the stripped textual form of `Card ID` is exactly the
case-sensitive sentinel `"*None"`, in which case it equals the record's
`Customer Name`. -/
theorem debtor_reference_sentinel (r : RawRow)
    (_hreq : required_present r = true) :
    (pyStrip (pyStrCell r.cardId) = "*None" →
      (transformRow r).debtorReference = r.customerName) ∧
    (pyStrip (pyStrCell r.cardId) ≠ "*None" →
      (transformRow r).debtorReference = r.cardId) := by
  constructor <;> intro h <;> simp [transformRow, debtor_reference, h]

/-- Witness for C4: the sentinel row falls back to the customer name,
a regular card id passes through. -/
theorem debtor_reference_sentinel_witness :
    (transformRow exampleRow1).debtorReference = exampleRow1.customerName ∧
    (transformRow exampleRow2).debtorReference = exampleRow2.cardId :=
  ⟨(debtor_reference_sentinel exampleRow1 (by decide)).1 (by decide),
   (debtor_reference_sentinel exampleRow2 (by decide)).2 (by decide)⟩

/-- Claim C5: `Transaction Type` is `"CRD"` exactly when the amount due
is strictly negative, and `"INV"` otherwise, zero included. -/
theorem transaction_type_sign (r : RawRow) (q : ℚ)
    (_hreq : required_present r = true) (hq : r.amountDue = some q) :
    ((transformRow r).transactionType = "CRD" ↔ q < 0) ∧
    (0 ≤ q → (transformRow r).transactionType = "INV") ∧
    (q = 0 → (transformRow r).transactionType = "INV") := by
  have ht : (transformRow r).transactionType = if q < 0 then "CRD" else "INV" := by
    simp [transformRow, transaction_type, hq]
  refine ⟨?_, ?_, ?_⟩
  · rw [ht]; by_cases h : q < 0 <;> simp [h]
  · intro h; rw [ht, if_neg (not_lt.mpr h)]
  · intro h; rw [ht, if_neg (not_lt.mpr (le_of_eq h.symm))]

/-- Witness for C5 at a negative, a zero and a positive amount. -/
theorem transaction_type_sign_witness :
    ((transformRow crdRow).transactionType = "CRD" ↔ (-10 : ℚ) < 0) ∧
    (transformRow zeroRow).transactionType = "INV" ∧
    (transformRow posRow).transactionType = "INV" :=
  ⟨(transaction_type_sign crdRow (-10) (by decide) rfl).1,
   (transaction_type_sign zeroRow 0 (by decide) rfl).2.2 rfl,
   (transaction_type_sign posRow 10 (by decide) rfl).2.1 (by norm_num)⟩

/-- Claim C6: `Document Balance` is the fixed-point rendering of the
amount due with exactly two digits after the point, preserving the
sign, containing nothing but digits, a minus and the point, and whose
digits read off the exact amount rounded to cents. -/
theorem document_balance_two_decimals (r : RawRow) (q : ℚ)
    (_hreq : required_present r = true) (hq : r.amountDue = some q) :
    (transformRow r).documentBalance = formatTwoDec (some q) ∧
    twoDecShape ((transformRow r).documentBalance) q := by
  have hb : (transformRow r).documentBalance = formatTwoDec (some q) := by
    simp [transformRow, hq]
  exact ⟨hb, hb ▸ formatTwoDec_shape q⟩

/-- Witness for C6 at the amount `-5`, whose balance renders as the
concrete string `-5.00`. -/
theorem document_balance_two_decimals_witness :
    (transformRow exampleRow2).documentBalance = formatTwoDec (some (-5)) ∧
    twoDecShape ((transformRow exampleRow2).documentBalance) (-5) ∧
    (transformRow exampleRow2).documentBalance = "-5.00" := by
  have h := document_balance_two_decimals exampleRow2 (-5) (by decide) rfl
  refine ⟨h.1, h.2, h.1.trans ?_⟩
  have h1 : |(-5 : ℚ)| * 100 = (500 : ℚ) := by norm_num
  have h2 : roundHalfEven ((500 : ℚ)) = 500 := by
    simp only [roundHalfEven]; norm_num
  simp only [formatTwoDec, h1, h2]
  norm_num
  decide

/-- Claim C7: `Document Date` renders a calendar-date cell as
`YYYY-MM-DD` (zero-padded year, month and day), renders any other
populated cell as its unchanged textual form, and renders a blank cell
as the empty string. -/
theorem document_date_rendering (r : RawRow) :
    (transformRow r).documentDate = convert_date r.date ∧
    (r.date = none → (transformRow r).documentDate = "") ∧
    (∀ y m d, r.date = some (.timestamp y m d) →
      (transformRow r).documentDate = String.mk (zfill 4 (natDecimal y) ++
        '-' :: zfill 2 (natDecimal m) ++ '-' :: zfill 2 (natDecimal d))) ∧
    (∀ v, r.date = some v → (∀ y m d, v ≠ .timestamp y m d) →
      (transformRow r).documentDate = pyStr v) := by
  refine ⟨rfl, ?_, ?_, ?_⟩
  · intro h; simp [transformRow, convert_date, h]
  · intro y m d h; simp [transformRow, convert_date, h]
  · intro v h hnt
    cases v with
    | timestamp y m d => exact absurd rfl (hnt y m d)
    | text s => simp [transformRow, convert_date, h]
    | int z => simp [transformRow, convert_date, h]
    | float q => simp [transformRow, convert_date, h]

/-- Witness for C7: the timestamp 2024-01-05 renders as the ISO string,
and a textual date passes through. -/
theorem document_date_rendering_witness :
    (transformRow exampleRow1).documentDate = "2024-01-05" ∧
    (transformRow
      { exampleRow1 with date := some (.text "Jan 5") }).documentDate =
        "Jan 5" := by
  constructor
  · exact ((document_date_rendering exampleRow1).2.2.1 2024 1 5 rfl).trans
      (by decide)
  · exact ((document_date_rendering
      { exampleRow1 with date := some (.text "Jan 5") }).2.2.2
        (.text "Jan 5") rfl (by intro y m d h; exact Value.noConfusion h)).trans
      rfl

/-- Claim C8: a parse failure of the spreadsheet propagates out of
`process_excel` unchanged, producing no output rows, and `main` builds
no CSV from it: the caller receives only the error message. -/
theorem parse_failure_aborts (e : String) :
    process_excel (.error e) = .error e ∧
    main_result (.error e) = .error e :=
  ⟨rfl, rfl⟩

/-- Claim C9: the pipeline is exactly the per-record transform mapped,
in source order, over the extraction result restricted to the rows with
all required fields: one output row per surviving raw row. -/
theorem pipeline_is_filtered_map (rows : List RawRow) :
    process_excel (.ok rows) =
      .ok ((rows.filter required_present).map transformRow) :=
  process_excel_ok rows

/-- Claim C10: a row with the four required fields present but a blank
`Amount Due` is not filtered out: it reaches the output with
`Transaction Type` `"INV"` and `Document Balance` the literal string
`"nan"`. -/
theorem blank_amount_survives (rows : List RawRow) (r : RawRow)
    (h1 : r ∈ rows) (h2 : required_present r = true)
    (h3 : r.amountDue = none) :
    (∀ outs, process_excel (.ok rows) = .ok outs → transformRow r ∈ outs) ∧
    (transformRow r).transactionType = "INV" ∧
    (transformRow r).documentBalance = "nan" := by
  refine ⟨?_, ?_, ?_⟩
  · intro outs houts
    rw [process_excel_ok rows] at houts
    have heq : (rows.filter required_present).map transformRow = outs := by
      simpa using houts
    subst heq
    exact List.mem_map_of_mem _ (List.mem_filter.mpr ⟨h1, by simpa using h2⟩)
  · simp [transformRow, transaction_type, h3]
  · simp [transformRow, formatTwoDec, h3]

/-- Witness for C10 on a concrete row with a blank amount due. -/
theorem blank_amount_survives_witness :
    (∀ outs, process_excel (.ok [blankAmountRow]) = .ok outs →
      transformRow blankAmountRow ∈ outs) ∧
    (transformRow blankAmountRow).transactionType = "INV" ∧
    (transformRow blankAmountRow).documentBalance = "nan" :=
  blank_amount_survives [blankAmountRow] blankAmountRow
    (List.mem_cons_self _ _) (by decide) rfl
